import Mathlib

/-!
Verification of the Docling parser CLI adapter
(`src/ui/server/python/docling_parser.py`).

The script is a thin adapter: it resolves a document path from `argv[1]`
or from the first line of stdin, calls the external Docling converter,
normalises the result (markdown string, table records, metadata) or any
raised exception into a fixed JSON envelope, and prints that envelope.

The development below is a shallow embedding of that script:
  - `Json`, `dumps` model JSON values and CPython `json.dumps`
    (`indent`/`ensure_ascii` as used at the two call sites);
  - `pathName`, `pathSuffix` model `pathlib.Path(p).name` / `.suffix`;
  - `PyDocument`, `PyTable`, `ExportAttr`, `NumPagesAttr` model the
    duck-typed surface of the external collaborator that the script
    actually touches;
  - `parse_document` embeds the function of the same name;
  - `runMain` embeds the `__main__` block, returning the printed stdout
    text together with the exit code.
-/

/-! JSON values.  A mutual inductive (instead of nested `List`) so that
the serializer below is structurally recursive and kernel-reducible. -/

mutual
/-- A JSON value, as produced by the Python dict/list/scalar literals in
the script. Object entries keep insertion order, as Python dicts do. -/
inductive Json where
  | null
  | bool (b : Bool)
  | int (n : Int)
  | str (s : String)
  | arr (xs : JsonList)
  | obj (kvs : JsonEntries)
deriving Repr

/-- A list of JSON values. -/
inductive JsonList where
  | nil
  | cons (hd : Json) (tl : JsonList)
deriving Repr

/-- Ordered key/value entries of a JSON object. -/
inductive JsonEntries where
  | nil
  | cons (key : String) (val : Json) (tl : JsonEntries)
deriving Repr
end

/-- Convert a Lean list of JSON values into a `JsonList`. -/
def JsonList.ofList : List Json → JsonList
  | [] => JsonList.nil
  | x :: xs => JsonList.cons x (JsonList.ofList xs)

/-- Length of a `JsonList`. -/
def JsonList.length : JsonList → Nat
  | JsonList.nil => 0
  | JsonList.cons _ tl => JsonList.length tl + 1

/-- Find the value of the first entry with the given key. -/
def JsonEntries.lookup : JsonEntries → String → Option Json
  | JsonEntries.nil, _ => none
  | JsonEntries.cons k v tl, key => if k = key then some v else JsonEntries.lookup tl key

/-- Look a key up in a JSON value; `none` unless it is an object that
contains the key. -/
def Json.lookup : Json → String → Option Json
  | Json.obj kvs, key => JsonEntries.lookup kvs key
  | _, _ => none

/-! Model of CPython `json.dumps(value, ensure_ascii, indent)` for the
two configurations the script uses: the default
(`ensure_ascii=True, indent=None`, separators `", "` and `": "`) and
(`ensure_ascii=False, indent=2`, separators `","` and `": "`). -/

/-- Indentation padding: `n * d` spaces. -/
def pad (n d : Nat) : String := String.mk (List.replicate (n * d) ' ')

/-- Text emitted after an opening bracket of a non-empty container at
depth `d`: newline plus padding when indenting, nothing otherwise. -/
def openSep (ind : Option Nat) (d : Nat) : String :=
  match ind with
  | some n => "\n" ++ pad n (d + 1)
  | none => ""

/-- Item separator inside a non-empty container at depth `d`: CPython
uses `","` + newline + padding when indenting and `", "` otherwise. -/
def itemSep (ind : Option Nat) (d : Nat) : String :=
  match ind with
  | some n => ",\n" ++ pad n (d + 1)
  | none => ", "

/-- Text emitted before the closing bracket of a non-empty container at
depth `d`. -/
def closeSep (ind : Option Nat) (d : Nat) : String :=
  match ind with
  | some n => "\n" ++ pad n d
  | none => ""

/-- Lower-case hexadecimal digit. -/
def hexDigit (n : Nat) : Char := if n < 10 then Char.ofNat (48 + n) else Char.ofNat (87 + n)

/-- Four lower-case hex digits, as in CPython `'\\u%04x'`. -/
def hex4 (n : Nat) : String :=
  String.mk [hexDigit (n / 4096 % 16), hexDigit (n / 256 % 16), hexDigit (n / 16 % 16),
    hexDigit (n % 16)]

/-- The `\\uXXXX` escape of a code point, using a surrogate pair above
the basic multilingual plane, as CPython does with `ensure_ascii=True`. -/
def uEscape (n : Nat) : String :=
  if n < 65536 then "\\u" ++ hex4 n
  else "\\u" ++ hex4 (55296 + (n - 65536) / 1024) ++ "\\u" ++ hex4 (56320 + (n - 65536) % 1024)

/-- Encoding of one character inside a JSON string literal.  With
`ensure_ascii = false` CPython escapes only the quote, the backslash and
control characters; with `ensure_ascii = true` it additionally escapes
every character outside printable ASCII. -/
def encodeChar (ensureAscii : Bool) (c : Char) : String :=
  if c = '"' then ("\\\"")
  else if c = '\\' then ("\\\\")
  else if c = '\n' then ("\\n")
  else if c = '\t' then ("\\t")
  else if c = '\r' then ("\\r")
  else if c.toNat = 8 then ("\\b")
  else if c.toNat = 12 then ("\\f")
  else if c.toNat < 32 then "\\u" ++ hex4 c.toNat
  else if ensureAscii && c.toNat > 126 then uEscape c.toNat
  else String.singleton c

/-- Encoding of a whole JSON string literal, quotes included. -/
def encodeString (ensureAscii : Bool) (s : String) : String :=
  "\"" ++ String.join (s.toList.map (encodeChar ensureAscii)) ++ "\""

mutual
/-- Serialization of a JSON value at depth `d`, modelling
`json.dumps(v, ensure_ascii=ea, indent=ind)`. -/
def dumps (ind : Option Nat) (ea : Bool) (d : Nat) : Json → String
  | Json.null => "null"
  | Json.bool b => if b then ("true") else ("false")
  | Json.int n => toString n
  | Json.str s => encodeString ea s
  | Json.arr xs =>
      match xs with
      | JsonList.nil => "[]"
      | JsonList.cons _ _ =>
          "[" ++ openSep ind d ++
            String.intercalate (itemSep ind d) (dumpsItems ind ea (d + 1) xs) ++
            closeSep ind d ++ "]"
  | Json.obj kvs =>
      match kvs with
      | JsonEntries.nil => "\x7b\x7d"
      | JsonEntries.cons _ _ _ =>
          "\x7b" ++ openSep ind d ++
            String.intercalate (itemSep ind d) (dumpsEntries ind ea (d + 1) kvs) ++
            closeSep ind d ++ "\x7d"

/-- Serializations of the items of a JSON array. -/
def dumpsItems (ind : Option Nat) (ea : Bool) (d : Nat) : JsonList → List String
  | JsonList.nil => []
  | JsonList.cons x xs => dumps ind ea d x :: dumpsItems ind ea d xs

/-- Serializations of the entries of a JSON object, each rendered as
`"key": value` with CPython's key separator `": "`. -/
def dumpsEntries (ind : Option Nat) (ea : Bool) (d : Nat) : JsonEntries → List String
  | JsonEntries.nil => []
  | JsonEntries.cons k v kvs =>
      (encodeString ea k ++ ": " ++ dumps ind ea d v) :: dumpsEntries ind ea d kvs
end

/-- Number of newline characters in a string. -/
def countNewlines (s : String) : Nat := s.toList.countP (fun c => c == '\n')

/-! Model of `pathlib.PurePosixPath` for the two accessors the script
uses, `Path(file_path).name` and `Path(file_path).suffix`. -/

/-- Split a character list on the path separator. -/
def splitOnSlash : List Char → List (List Char)
  | [] => [[]]
  | c :: cs =>
    if c = '/' then [] :: splitOnSlash cs
    else
      match splitOnSlash cs with
      | [] => [[c]]
      | p :: ps => (c :: p) :: ps

/-- The components of a POSIX path as pathlib parses them: split on the
separator, dropping empty components and sole-dot components (the root
is irrelevant to `name`). -/
def pathParts (p : String) : List (List Char) :=
  (splitOnSlash p.toList).filter (fun cs => !(cs == [] || cs == ['.']))

/-- The final path component, the empty string when there is none:
`pathlib.Path(p).name`. -/
def pathName (p : String) : String := String.mk (((pathParts p).getLast?).getD [])

/-- Index of the last occurrence of a character in a list, if any. -/
def lastIdxOf (c : Char) : List Char → Option Nat
  | [] => none
  | x :: xs =>
    match lastIdxOf c xs with
    | some i => some (i + 1)
    | none => if x = c then some 0 else none

/-- The extension of the final component, leading dot included:
`pathlib.Path(p).suffix`.  CPython returns `name[i:]` for the last dot
position `i` when `0 < i < len(name) - 1`, and the empty string
otherwise (so dotfiles and trailing-dot names have no suffix). -/
def pathSuffix (p : String) : String :=
  let cs := (pathName p).toList
  match lastIdxOf '.' cs with
  | none => ""
  | some i => if 0 < i ∧ i < cs.length - 1 then String.mk (cs.drop i) else ""

/-! Model of the duck-typed surface of the external Docling collaborator
that the script touches.  Every operation that can raise is modelled
with `Except String`, the error being the `str()` of the exception. -/

/-- What `table.export_to_markdown` can be on a table object: the
attribute may be absent (so that the attribute access in
`hasattr(table.export_to_markdown, '__call__')` raises an
AttributeError whose `str()` is `errMsg`), it may be a callable (whose
call returns a markdown string or raises), or it may be a plain
non-callable value (for which `hasattr(..., '__call__')` is false). -/
inductive ExportAttr where
  | absent (errMsg : String)
  | callable (result : Except String String)
  | noncallable

/-- A table object exposed by the converted document: its
`export_to_markdown` attribute, its `str()` rendering, and its optional
`num_rows` / `num_cols` attributes as read by `getattr(_, _, None)`. -/
structure PyTable where
  exportAttr : ExportAttr
  strRepr : String
  num_rows : Option Int
  num_cols : Option Int

/-- What `getattr(result.document, 'num_pages', None)` can yield: the
attribute may be absent, may be a callable (a method), or may be a
plain value. -/
inductive NumPagesAttr where
  | absent
  | callableAttr
  | value (n : Int)

/-- The converted document object: its `export_to_markdown()` call
(which returns the markdown text or raises), its `tables` collection,
and its `num_pages` attribute. -/
structure PyDocument where
  export_to_markdown : Except String String
  tables : List PyTable
  numPagesAttr : NumPagesAttr

/-! Embedding of `parse_document` (docling_parser.py lines 12-74). -/

/-- The markdown text obtained for one table by
`table.export_to_markdown(result.document) if
hasattr(table.export_to_markdown, '__call__') else str(table)`:
an absent attribute raises, a callable is called, a non-callable
attribute falls back to `str(table)`. -/
def tableMarkdown (t : PyTable) : Except String String :=
  match t.exportAttr with
  | ExportAttr.absent msg => Except.error msg
  | ExportAttr.callable r => r
  | ExportAttr.noncallable => Except.ok t.strRepr

/-- JSON of an optional integer attribute: `null` when absent. -/
def optIntJson : Option Int → Json
  | none => Json.null
  | some n => Json.int n

/-- The dict appended to `tables` for one table (lines 42-46). -/
def tableRecord (t : PyTable) (data : String) : Json :=
  Json.obj (JsonEntries.cons ("data") (Json.str data)
    (JsonEntries.cons ("num_rows") (optIntJson t.num_rows)
    (JsonEntries.cons ("num_cols") (optIntJson t.num_cols) JsonEntries.nil)))

/-- The table-extraction loop (lines 38-46): tables are processed in
order, and the first raising table aborts the whole `try` block. -/
def extractTables : List PyTable → Except String (List Json)
  | [] => Except.ok []
  | t :: ts =>
    match tableMarkdown t with
    | Except.error e => Except.error e
    | Except.ok md =>
      match extractTables ts with
      | Except.error e => Except.error e
      | Except.ok rs => Except.ok (tableRecord t md :: rs)

/-- The data string a table record receives when its extraction does
not raise: the callable's returned markdown, or the `str(table)`
fallback for a non-callable attribute. -/
def exportedData (t : PyTable) : String :=
  match tableMarkdown t with
  | Except.ok s => s
  | Except.error _ => ""

/-- The `num_pages` metadata value (lines 49-52): the attribute value
when it is a plain value, `null` when it is absent or callable. -/
def numPagesJson : NumPagesAttr → Json
  | NumPagesAttr.value n => Json.int n
  | NumPagesAttr.absent => Json.null
  | NumPagesAttr.callableAttr => Json.null

/-- The `metadata` dict (lines 54-58). -/
def metadataJson (file_path : String) (np : NumPagesAttr) : Json :=
  Json.obj (JsonEntries.cons ("num_pages") (numPagesJson np)
    (JsonEntries.cons ("file_type") (Json.str (pathSuffix file_path))
    (JsonEntries.cons ("file_name") (Json.str (pathName file_path)) JsonEntries.nil)))

/-- The success envelope returned at lines 60-65. -/
def successEnvelope (file_path markdown : String) (tables : List Json)
    (np : NumPagesAttr) : Json :=
  Json.obj (JsonEntries.cons ("success") (Json.bool true)
    (JsonEntries.cons ("markdown") (Json.str markdown)
    (JsonEntries.cons ("tables") (Json.arr (JsonList.ofList tables))
    (JsonEntries.cons ("metadata") (metadataJson file_path np) JsonEntries.nil))))

/-- The failure envelope returned by the `except` branch (lines 67-74). -/
def failureEnvelope (e : String) : Json :=
  Json.obj (JsonEntries.cons ("success") (Json.bool false)
    (JsonEntries.cons ("error") (Json.str e)
    (JsonEntries.cons ("markdown") Json.null
    (JsonEntries.cons ("tables") (Json.arr JsonList.nil)
    (JsonEntries.cons ("metadata") (Json.obj JsonEntries.nil) JsonEntries.nil)))))

/-- The body of the `try` block of `parse_document`: conversion, then
markdown export, then table extraction, each step able to raise; the
first raised exception aborts with its message. -/
def tryBody (convert : String → Except String PyDocument) (file_path : String) :
    Except String Json :=
  match convert file_path with
  | Except.error e => Except.error e
  | Except.ok doc =>
    match doc.export_to_markdown with
    | Except.error e => Except.error e
    | Except.ok markdown =>
      match extractTables doc.tables with
      | Except.error e => Except.error e
      | Except.ok tables => Except.ok (successEnvelope file_path markdown tables doc.numPagesAttr)

/-- Embedding of `parse_document`, parametrised by the collaborator's
conversion behaviour `convert` (covering `DocumentConverter()` and
`converter.convert(file_path)` up to `result.document`): the try-block
result on success, the failure envelope on any exception. -/
def parse_document (convert : String → Except String PyDocument) (file_path : String) : Json :=
  match tryBody convert file_path with
  | Except.ok j => j
  | Except.error e => failureEnvelope e

/-! Embedding of the `__main__` block (lines 76-95). -/

/-- Whitespace as stripped by Python `str.strip()` (ASCII range). -/
def pyIsSpace (c : Char) : Bool :=
  c == ' ' || c == '\t' || c == '\n' || c == '\r' || c.toNat == 11 || c.toNat == 12

/-- Python `str.strip()`: remove leading and trailing whitespace. -/
def pyStrip (s : String) : String :=
  String.mk (((s.toList.dropWhile pyIsSpace).reverse.dropWhile pyIsSpace).reverse)

/-- Characters of the first line of a stream, newline included. -/
def readlineList : List Char → List Char
  | [] => []
  | c :: cs => if c = '\n' then [c] else c :: readlineList cs

/-- Python `sys.stdin.readline()` on a stream with the given contents. -/
def readline (s : String) : String := String.mk (readlineList s.toList)

/-- Input resolution (lines 77-82): the first command-line argument
(`args` stands for `sys.argv[1:]`) if any, else the stripped first line
of stdin. -/
def resolvePath (args : List String) (stdin : String) : String :=
  match args with
  | a :: _ => a
  | [] => pyStrip (readline stdin)

/-- The envelope printed when no file path was provided (lines 85-88). -/
def noPathEnvelope : Json :=
  Json.obj (JsonEntries.cons ("success") (Json.bool false)
    (JsonEntries.cons ("error") (Json.str ("No file path provided")) JsonEntries.nil))

/-- Embedding of the `__main__` block: returns the full stdout text and
the exit code.  The missing-path envelope is serialized with
`json.dumps` defaults (compact, ASCII-escaping); the parse result with
`ensure_ascii=False, indent=2`.  `print` appends one newline. -/
def runMain (convert : String → Except String PyDocument) (args : List String)
    (stdin : String) : String × Nat :=
  let file_path := resolvePath args stdin
  if file_path = "" then
    (dumps none true 0 noPathEnvelope ++ "\n", 1)
  else
    (dumps (some 2) false 0 (parse_document convert file_path) ++ "\n", 0)

/-! Concrete collaborator behaviours used to exhibit witnesses. -/

/-- A document with no tables and a plain integer page count. -/
def docPlain : PyDocument :=
  { export_to_markdown := Except.ok ("# Title"),
    tables := [],
    numPagesAttr := NumPagesAttr.value 3 }

/-- A collaborator that converts every path to `docPlain`. -/
def convPlain : String → Except String PyDocument := fun _ => Except.ok docPlain

/-- A collaborator that raises on every path. -/
def convRaise : String → Except String PyDocument := fun _ => Except.error ("File not found")

/-- A table whose `export_to_markdown` attribute is absent, so that the
attribute access itself raises. -/
def tableNoAttr : PyTable :=
  { exportAttr := ExportAttr.absent ("'Table' object has no attribute"),
    strRepr := ("<Table>"), num_rows := some 2, num_cols := some 3 }

/-- A table whose `export_to_markdown` attribute is a non-callable
plain value, so that the `str(table)` fallback is taken. -/
def tableNonCallable : PyTable :=
  { exportAttr := ExportAttr.noncallable,
    strRepr := ("<TableItem repr>"), num_rows := none, num_cols := some 4 }

/-- A table whose `export_to_markdown` is a callable returning markdown. -/
def tableCallable : PyTable :=
  { exportAttr := ExportAttr.callable (Except.ok ("| a | b |")),
    strRepr := ("<TableItem>"), num_rows := some 1, num_cols := some 2 }

/-- A document exposing only `tableNoAttr`. -/
def docNoAttrTable : PyDocument :=
  { export_to_markdown := Except.ok ("body"),
    tables := [tableNoAttr],
    numPagesAttr := NumPagesAttr.absent }

/-- A collaborator that converts every path to `docNoAttrTable`. -/
def convNoAttrTable : String → Except String PyDocument := fun _ => Except.ok docNoAttrTable

/-- A document whose `num_pages` attribute is a method (callable). -/
def docCallablePages : PyDocument :=
  { export_to_markdown := Except.ok ("pages"),
    tables := [tableCallable, tableNonCallable],
    numPagesAttr := NumPagesAttr.callableAttr }

/-- A collaborator that converts every path to `docCallablePages`. -/
def convCallablePages : String → Except String PyDocument := fun _ => Except.ok docCallablePages

/-! Helper lemmas. -/

/-- Inversion of a successful try-block run: the conversion, the
markdown export and the table extraction all succeeded, and the result
is the success envelope built from their outputs. -/
theorem tryBody_ok_inv (convert : String → Except String PyDocument) (file_path : String)
    (j : Json) (h : tryBody convert file_path = Except.ok j) :
    ∃ doc markdown tables, convert file_path = Except.ok doc ∧
      doc.export_to_markdown = Except.ok markdown ∧
      extractTables doc.tables = Except.ok tables ∧
      j = successEnvelope file_path markdown tables doc.numPagesAttr := by
  unfold tryBody at h
  split at h
  next e heq => simp at h
  next doc heq =>
    split at h
    next e heq2 => simp at h
    next markdown heq2 =>
      split at h
      next e heq3 => simp at h
      next tables heq3 =>
        simp only [Except.ok.injEq] at h
        exact ⟨doc, markdown, tables, heq, heq2, heq3, h.symm⟩

/-- C1: for every file path on which the converter or the result
extraction raises, `parse_document` returns the failure envelope whose
`error` is the stringified exception, with `markdown` null, `tables`
empty and `metadata` empty; being a total function of the model, it
lets no exception escape. -/
theorem parse_document_failure_envelope
    (convert : String → Except String PyDocument) (file_path e : String)
    (h : tryBody convert file_path = Except.error e) :
    parse_document convert file_path = failureEnvelope e ∧
    Json.lookup (parse_document convert file_path) ("success") = some (Json.bool false) ∧
    Json.lookup (parse_document convert file_path) ("error") = some (Json.str e) ∧
    Json.lookup (parse_document convert file_path) ("markdown") = some Json.null ∧
    Json.lookup (parse_document convert file_path) ("tables") = some (Json.arr JsonList.nil) ∧
    Json.lookup (parse_document convert file_path) ("metadata") = some (Json.obj JsonEntries.nil) := by
  unfold parse_document
  rw [h]
  exact ⟨rfl, rfl, rfl, rfl, rfl, rfl⟩

/-- Witness for C1: a collaborator that raises on every path. -/
theorem parse_document_failure_envelope_witness :
    tryBody convRaise ("missing.pdf") = Except.error ("File not found") ∧
    parse_document convRaise ("missing.pdf") = failureEnvelope ("File not found") :=
  ⟨rfl, (parse_document_failure_envelope convRaise ("missing.pdf") ("File not found") rfl).1⟩

/-- C2: for every file path on which conversion and extraction succeed,
the envelope has `success` true, a non-null `markdown` string,
`metadata.file_name` the base name of the path and
`metadata.file_type` its extension with the leading dot. -/
theorem parse_document_success_fields
    (convert : String → Except String PyDocument) (file_path : String) (j : Json)
    (h : tryBody convert file_path = Except.ok j) :
    parse_document convert file_path = j ∧
    Json.lookup j ("success") = some (Json.bool true) ∧
    (∃ md, Json.lookup j ("markdown") = some (Json.str md)) ∧
    (∃ m, Json.lookup j ("metadata") = some m ∧
      Json.lookup m ("file_name") = some (Json.str (pathName file_path)) ∧
      Json.lookup m ("file_type") = some (Json.str (pathSuffix file_path))) := by
  obtain ⟨doc, markdown, tables, hc, hm, ht, hj⟩ := tryBody_ok_inv convert file_path j h
  subst hj
  refine ⟨?_, rfl, ⟨markdown, rfl⟩,
    ⟨metadataJson file_path doc.numPagesAttr, rfl, rfl, rfl⟩⟩
  unfold parse_document
  rw [h]

/-- Witness for C2: a collaborator that succeeds with no tables. -/
theorem parse_document_success_fields_witness :
    parse_document convPlain ("docs/report.pdf") =
      successEnvelope ("docs/report.pdf") ("# Title") [] (NumPagesAttr.value 3) ∧
    Json.lookup (successEnvelope ("docs/report.pdf") ("# Title") [] (NumPagesAttr.value 3))
      ("success") = some (Json.bool true) ∧
    (∃ md, Json.lookup (successEnvelope ("docs/report.pdf") ("# Title") [] (NumPagesAttr.value 3))
      ("markdown") = some (Json.str md)) ∧
    (∃ m, Json.lookup (successEnvelope ("docs/report.pdf") ("# Title") [] (NumPagesAttr.value 3))
        ("metadata") = some m ∧
      Json.lookup m ("file_name") = some (Json.str (pathName ("docs/report.pdf"))) ∧
      Json.lookup m ("file_type") = some (Json.str (pathSuffix ("docs/report.pdf")))) :=
  parse_document_success_fields convPlain ("docs/report.pdf")
    (successEnvelope ("docs/report.pdf") ("# Title") [] (NumPagesAttr.value 3)) rfl

/-- C3: with no command-line argument and a blank first stdin line, the
program prints the compact missing-path envelope and exits with code 1;
the output is the same for every collaborator, so the converter is
never invoked. -/
theorem main_no_path (convert : String → Except String PyDocument) (stdin : String)
    (h : pyStrip (readline stdin) = "") :
    runMain convert [] stdin =
      ("\x7b\"success\": false, \"error\": \"No file path provided\"\x7d\n", 1) := by
  have h2 : resolvePath [] stdin = "" := h
  unfold runMain
  rw [h2]
  rfl

/-- Witness for C3: a stdin whose first line is whitespace only. -/
theorem main_no_path_witness :
    pyStrip (readline ("  \n")) = "" ∧
    runMain convRaise [] ("  \n") =
      ("\x7b\"success\": false, \"error\": \"No file path provided\"\x7d\n", 1) :=
  ⟨rfl, main_no_path convRaise ("  \n") rfl⟩

/-- C6: the process exits with status 1 exactly when no file path
resolves, and with status 0 exactly when one does, conversion failures
included. -/
theorem main_exit_codes (convert : String → Except String PyDocument)
    (args : List String) (stdin : String) :
    ((runMain convert args stdin).2 = 1 ↔ resolvePath args stdin = "") ∧
    ((runMain convert args stdin).2 = 0 ↔ resolvePath args stdin ≠ "") := by
  unfold runMain
  by_cases h : resolvePath args stdin = "" <;> simp [h]

/-- Witness for C6: an argument path exits 0 even though the
collaborator raises; a missing path exits 1. -/
theorem main_exit_codes_witness :
    (runMain convRaise ["data/doc.pdf"] ("")).2 = 0 ∧ (runMain convRaise [] ("")).2 = 1 :=
  ⟨((main_exit_codes convRaise ["data/doc.pdf"] ("")).2).mpr (by decide),
   ((main_exit_codes convRaise [] ("")).1).mpr (by decide)⟩

/-- C10: when at least one command-line argument is present, the output
and exit status do not depend on the stdin contents, so the program
never reads standard input. -/
theorem main_stdin_independence (convert : String → Except String PyDocument)
    (a : String) (args : List String) (s1 s2 : String) :
    runMain convert (a :: args) s1 = runMain convert (a :: args) s2 := rfl

/-- Inversion of a successful run of the table-extraction loop: one
record per table, in order, each built from its table's markdown. -/
theorem extractTables_ok (ts : List PyTable) (rs : List Json)
    (h : extractTables ts = Except.ok rs) :
    rs.length = ts.length ∧
    ∀ i (hi : i < ts.length) (hj : i < rs.length),
      ∃ s, tableMarkdown (ts.get ⟨i, hi⟩) = Except.ok s ∧
        rs.get ⟨i, hj⟩ = tableRecord (ts.get ⟨i, hi⟩) s := by
  induction ts generalizing rs with
  | nil =>
    simp only [extractTables, Except.ok.injEq] at h
    subst h
    exact ⟨rfl, fun i hi hj => absurd hi (by simp)⟩
  | cons t ts ih =>
    unfold extractTables at h
    split at h
    next e heq => simp at h
    next md heq =>
      split at h
      next e heq2 => simp at h
      next rs2 heq2 =>
        simp only [Except.ok.injEq] at h
        subst h
        obtain ⟨hlen, hget⟩ := ih rs2 heq2
        refine ⟨by simp [hlen], ?_⟩
        intro i hi hj
        cases i with
        | zero => exact ⟨md, heq, rfl⟩
        | succ k =>
          have hk : k < ts.length := by simpa using hi
          have hk2 : k < rs2.length := by simpa using hj
          obtain ⟨s, hs1, hs2⟩ := hget k hk hk2
          exact ⟨s, hs1, hs2⟩

/-- C7: every envelope the program produces populates exactly one side:
`success` true has no `error` entry; `success` false carries an error
string with `markdown` null, `tables` empty and `metadata` empty; the
missing-path envelope carries only the error, the payload keys being
absent altogether. -/
theorem envelope_invariant (convert : String → Except String PyDocument) (file_path : String) :
    (Json.lookup (parse_document convert file_path) ("success") = some (Json.bool true) →
      Json.lookup (parse_document convert file_path) ("error") = none) ∧
    (Json.lookup (parse_document convert file_path) ("success") = some (Json.bool false) →
      Json.lookup (parse_document convert file_path) ("markdown") = some Json.null ∧
      Json.lookup (parse_document convert file_path) ("tables") = some (Json.arr JsonList.nil) ∧
      Json.lookup (parse_document convert file_path) ("metadata") = some (Json.obj JsonEntries.nil) ∧
      ∃ e, Json.lookup (parse_document convert file_path) ("error") = some (Json.str e)) ∧
    (Json.lookup noPathEnvelope ("success") = some (Json.bool false) ∧
      (∃ e, Json.lookup noPathEnvelope ("error") = some (Json.str e)) ∧
      Json.lookup noPathEnvelope ("markdown") = none ∧
      Json.lookup noPathEnvelope ("tables") = none ∧
      Json.lookup noPathEnvelope ("metadata") = none) := by
  refine ⟨?_, ?_, rfl, ⟨("No file path provided"), rfl⟩, rfl, rfl, rfl⟩
  · intro hs
    cases ht : tryBody convert file_path with
    | ok j =>
      obtain ⟨doc, md, tbs, _, _, _, hj⟩ := tryBody_ok_inv convert file_path j ht
      subst hj
      unfold parse_document
      rw [ht]
      rfl
    | error e =>
      have hfalse : Json.lookup (parse_document convert file_path) ("success") =
          some (Json.bool false) := by
        unfold parse_document
        rw [ht]
        rfl
      rw [hfalse] at hs
      simp at hs
  · intro hs
    cases ht : tryBody convert file_path with
    | error e =>
      unfold parse_document
      rw [ht]
      exact ⟨rfl, rfl, rfl, e, rfl⟩
    | ok j =>
      obtain ⟨doc, md, tbs, _, _, _, hj⟩ := tryBody_ok_inv convert file_path j ht
      subst hj
      have htrue : Json.lookup (parse_document convert file_path) ("success") =
          some (Json.bool true) := by
        unfold parse_document
        rw [ht]
        rfl
      rw [htrue] at hs
      simp at hs

/-- Witness for C7: the failure side at a raising collaborator. -/
theorem envelope_invariant_witness :
    Json.lookup (parse_document convRaise ("a.pdf")) ("markdown") = some Json.null ∧
    Json.lookup (parse_document convRaise ("a.pdf")) ("tables") = some (Json.arr JsonList.nil) ∧
    Json.lookup (parse_document convRaise ("a.pdf")) ("metadata") = some (Json.obj JsonEntries.nil) ∧
    ∃ e, Json.lookup (parse_document convRaise ("a.pdf")) ("error") = some (Json.str e) :=
  (envelope_invariant convRaise ("a.pdf")).2.1 rfl

/-- C8: on a successful conversion, `metadata.num_pages` is exactly the
image of the document's `num_pages` attribute under the guard: the
plain value when one is exposed, `null` when it is absent or callable,
and in every case `null` or an integer, never anything else. -/
theorem num_pages_guard (convert : String → Except String PyDocument) (file_path : String)
    (doc : PyDocument) (j : Json)
    (hc : convert file_path = Except.ok doc)
    (h : tryBody convert file_path = Except.ok j) :
    ∃ m, Json.lookup j ("metadata") = some m ∧
      Json.lookup m ("num_pages") = some (numPagesJson doc.numPagesAttr) ∧
      numPagesJson NumPagesAttr.callableAttr = Json.null ∧
      numPagesJson NumPagesAttr.absent = Json.null ∧
      (∀ n, numPagesJson (NumPagesAttr.value n) = Json.int n) ∧
      (∀ np : NumPagesAttr, numPagesJson np = Json.null ∨ ∃ n, numPagesJson np = Json.int n) := by
  obtain ⟨doc2, md, tbs, hc2, hm, ht, hj⟩ := tryBody_ok_inv convert file_path j h
  rw [hc] at hc2
  injection hc2 with hdoc
  subst hdoc
  subst hj
  refine ⟨metadataJson file_path doc.numPagesAttr, rfl, rfl, rfl, rfl, fun n => rfl, ?_⟩
  intro np
  cases np with
  | absent => exact Or.inl rfl
  | callableAttr => exact Or.inl rfl
  | value n => exact Or.inr ⟨n, rfl⟩

/-- Witness for C8: a document whose `num_pages` is a method. -/
theorem num_pages_guard_witness :
    ∃ m, Json.lookup (successEnvelope ("a/b.html") ("pages")
        [tableRecord tableCallable ("| a | b |"), tableRecord tableNonCallable ("<TableItem repr>")]
        NumPagesAttr.callableAttr) ("metadata") = some m ∧
      Json.lookup m ("num_pages") = some (numPagesJson docCallablePages.numPagesAttr) ∧
      numPagesJson NumPagesAttr.callableAttr = Json.null ∧
      numPagesJson NumPagesAttr.absent = Json.null ∧
      (∀ n, numPagesJson (NumPagesAttr.value n) = Json.int n) ∧
      (∀ np : NumPagesAttr, numPagesJson np = Json.null ∨ ∃ n, numPagesJson np = Json.int n) :=
  num_pages_guard convCallablePages ("a/b.html") docCallablePages
    (successEnvelope ("a/b.html") ("pages")
      [tableRecord tableCallable ("| a | b |"), tableRecord tableNonCallable ("<TableItem repr>")]
      NumPagesAttr.callableAttr) rfl rfl

/-- C9: on a successful conversion, the `tables` entry has exactly one
record per exposed table, in the same order, each with a string `data`
entry; zero tables give the empty sequence. -/
theorem tables_count_order (convert : String → Except String PyDocument) (file_path : String)
    (doc : PyDocument) (j : Json)
    (hc : convert file_path = Except.ok doc)
    (h : tryBody convert file_path = Except.ok j) :
    ∃ ts : List Json, Json.lookup j ("tables") = some (Json.arr (JsonList.ofList ts)) ∧
      ts.length = doc.tables.length ∧
      ∀ i (hi : i < doc.tables.length) (hj : i < ts.length),
        ∃ s, tableMarkdown (doc.tables.get ⟨i, hi⟩) = Except.ok s ∧
          ts.get ⟨i, hj⟩ = tableRecord (doc.tables.get ⟨i, hi⟩) s ∧
          Json.lookup (ts.get ⟨i, hj⟩) ("data") = some (Json.str s) := by
  obtain ⟨doc2, md, tbs, hc2, hm, ht, hj⟩ := tryBody_ok_inv convert file_path j h
  rw [hc] at hc2
  injection hc2 with hdoc
  subst hdoc
  subst hj
  obtain ⟨hlen, hget⟩ := extractTables_ok doc.tables tbs ht
  refine ⟨tbs, rfl, hlen, ?_⟩
  intro i hi hj2
  obtain ⟨s, hs1, hs2⟩ := hget i hi hj2
  refine ⟨s, hs1, hs2, ?_⟩
  rw [hs2]
  rfl

/-- Witness for C9: a document with zero tables yields the empty
sequence of records. -/
theorem tables_count_order_witness :
    ∃ ts : List Json,
      Json.lookup (successEnvelope ("docs/report.pdf") ("# Title") [] (NumPagesAttr.value 3))
        ("tables") = some (Json.arr (JsonList.ofList ts)) ∧
      ts.length = docPlain.tables.length ∧
      ∀ i (hi : i < docPlain.tables.length) (hj : i < ts.length),
        ∃ s, tableMarkdown (docPlain.tables.get ⟨i, hi⟩) = Except.ok s ∧
          ts.get ⟨i, hj⟩ = tableRecord (docPlain.tables.get ⟨i, hi⟩) s ∧
          Json.lookup (ts.get ⟨i, hj⟩) ("data") = some (Json.str s) :=
  tables_count_order convPlain ("docs/report.pdf") docPlain
    (successEnvelope ("docs/report.pdf") ("# Title") [] (NumPagesAttr.value 3)) rfl rfl

/-- C4 counterexample: a converted document exposing one table whose
markdown-export attribute is absent; instead of falling back to the
generic string representation the adapter fails, returning the failure
envelope with no table record at all. -/
theorem table_absent_attr_fails :
    parse_document convNoAttrTable ("t.md") =
      failureEnvelope ("'Table' object has no attribute") ∧
    Json.lookup (parse_document convNoAttrTable ("t.md")) ("success") =
      some (Json.bool false) ∧
    Json.lookup (parse_document convNoAttrTable ("t.md")) ("tables") =
      some (Json.arr JsonList.nil) :=
  ⟨rfl, rfl, rfl⟩

/-- C4 (amended): when a table's export attribute is exposed and
callable, its result is the record's `data`; when it is exposed but not
callable, the adapter falls back to `str(table)`; when it is absent
entirely, the attribute access raises and extraction aborts with that
error instead of producing a record; `num_rows` and `num_cols` are read
when available and default to null when not. -/
theorem tables_fallback_amended (ts : List PyTable) :
    ((∀ t, t ∈ ts → ∃ s, tableMarkdown t = Except.ok s) →
      extractTables ts = Except.ok (ts.map (fun t => tableRecord t (exportedData t)))) ∧
    (∀ (t : PyTable) rest m, t.exportAttr = ExportAttr.absent m →
      extractTables (t :: rest) = Except.error m) ∧
    (∀ t : PyTable, t.exportAttr = ExportAttr.noncallable →
      tableMarkdown t = Except.ok t.strRepr) ∧
    (∀ (t : PyTable) r, t.exportAttr = ExportAttr.callable r → tableMarkdown t = r) ∧
    (∀ (t : PyTable) s, Json.lookup (tableRecord t s) ("data") = some (Json.str s) ∧
      Json.lookup (tableRecord t s) ("num_rows") = some (optIntJson t.num_rows) ∧
      Json.lookup (tableRecord t s) ("num_cols") = some (optIntJson t.num_cols)) ∧
    optIntJson none = Json.null ∧ (∀ n, optIntJson (some n) = Json.int n) := by
  refine ⟨?_, ?_, ?_, ?_, fun t s => ⟨rfl, rfl, rfl⟩, rfl, fun n => rfl⟩
  · induction ts with
    | nil => intro _; rfl
    | cons t ts ih =>
      intro hall
      obtain ⟨s, hs⟩ := hall t (List.mem_cons_self t ts)
      have hrest := ih (fun u hu => hall u (List.mem_cons_of_mem t hu))
      unfold extractTables
      rw [hs, hrest]
      simp [exportedData, hs]
  · intro t rest m hm
    have ht : tableMarkdown t = Except.error m := by
      unfold tableMarkdown
      rw [hm]
    unfold extractTables
    rw [ht]
  · intro t h
    unfold tableMarkdown
    rw [h]
  · intro t r h
    unfold tableMarkdown
    rw [h]

/-- Witness for the amended C4: a single non-callable table takes the
fallback and yields its record. -/
theorem tables_fallback_amended_witness :
    extractTables [tableNonCallable] =
      Except.ok ([tableNonCallable].map (fun t => tableRecord t (exportedData t))) ∧
    tableMarkdown tableNonCallable = Except.ok tableNonCallable.strRepr :=
  ⟨(tables_fallback_amended [tableNonCallable]).1
      (by
        intro t ht
        simp only [List.mem_singleton] at ht
        subst ht
        exact ⟨("<TableItem repr>"), rfl⟩),
   (tables_fallback_amended [tableNonCallable]).2.2.1 tableNonCallable rfl⟩

/-- Newline counting distributes over string append. -/
theorem countNewlines_append (a b : String) :
    countNewlines (a ++ b) = countNewlines a + countNewlines b := by
  unfold countNewlines
  show ((a ++ b).data.countP _) = (a.data.countP _) + (b.data.countP _)
  rw [String.data_append, List.countP_append]

/-- Indentation padding contains no newline. -/
theorem countNewlines_pad (n d : Nat) : countNewlines (pad n d) = 0 := by
  unfold countNewlines pad
  show (List.replicate (n * d) ' ').countP _ = 0
  rw [List.countP_eq_zero]
  intro a ha
  rw [List.mem_replicate] at ha
  rw [ha.2]
  decide

/-- A non-empty object serialized with an indent spans several lines:
its rendering contains at least two newlines. -/
theorem dumps_indent_obj_multiline (ea : Bool) (k : String) (v : Json) (kvs : JsonEntries) :
    2 ≤ countNewlines (dumps (some 2) ea 0 (Json.obj (JsonEntries.cons k v kvs))) := by
  simp only [dumps]
  simp only [countNewlines_append]
  have h1 : countNewlines (openSep (some 2) 0) = 1 := rfl
  have h2 : countNewlines (closeSep (some 2) 0) = 1 := rfl
  rw [h1, h2]
  omega

/-- Every envelope `parse_document` returns is a non-empty JSON
object. -/
theorem parse_document_is_obj (convert : String → Except String PyDocument)
    (file_path : String) :
    ∃ k v kvs, parse_document convert file_path = Json.obj (JsonEntries.cons k v kvs) := by
  cases ht : tryBody convert file_path with
  | error e =>
    refine ⟨("success"), Json.bool false,
      JsonEntries.cons ("error") (Json.str e)
        (JsonEntries.cons ("markdown") Json.null
        (JsonEntries.cons ("tables") (Json.arr JsonList.nil)
        (JsonEntries.cons ("metadata") (Json.obj JsonEntries.nil) JsonEntries.nil))), ?_⟩
    unfold parse_document
    rw [ht]
    rfl
  | ok j =>
    obtain ⟨doc, md, tbs, _, _, _, hj⟩ := tryBody_ok_inv convert file_path j ht
    subst hj
    refine ⟨("success"), Json.bool true,
      JsonEntries.cons ("markdown") (Json.str md)
        (JsonEntries.cons ("tables") (Json.arr (JsonList.ofList tbs))
        (JsonEntries.cons ("metadata") (metadataJson file_path doc.numPagesAttr)
          JsonEntries.nil)), ?_⟩
    unfold parse_document
    rw [ht]
    rfl

/-- C5 counterexample: invoked with no argument and empty stdin, the
program prints the missing-input envelope compactly on a single line
with `json.dumps` defaults, not pretty-printed with multi-line
indentation. -/
theorem no_path_output_compact :
    (runMain convRaise [] ("")).1 =
      "\x7b\"success\": false, \"error\": \"No file path provided\"\x7d\n" ∧
    countNewlines ((runMain convRaise [] ("")).1) = 1 ∧
    (runMain convRaise [] ("")).1 ≠ dumps (some 2) false 0 noPathEnvelope ++ "\n" := by
  refine ⟨rfl, rfl, ?_⟩
  decide

/-- C5 (amended): whenever a file path resolves, the program prints the
`parse_document` envelope serialized with indent 2 and literal
non-ASCII characters, followed by the newline `print` appends; that
serialization spans multiple lines, and `ensure_ascii=False` encoding
leaves every non-control character other than the quote and the
backslash literal.  (The missing-path envelope is instead printed
compactly with `json.dumps` defaults.) -/
theorem main_output_serialization (convert : String → Except String PyDocument)
    (args : List String) (stdin : String)
    (h : resolvePath args stdin ≠ "") :
    (runMain convert args stdin).1 =
      dumps (some 2) false 0 (parse_document convert (resolvePath args stdin)) ++ "\n" ∧
    2 ≤ countNewlines ((runMain convert args stdin).1) ∧
    (∀ c : Char, 31 < c.toNat → c ≠ '"' → c ≠ '\\' →
      encodeChar false c = String.singleton c) := by
  have hout : (runMain convert args stdin).1 =
      dumps (some 2) false 0 (parse_document convert (resolvePath args stdin)) ++ "\n" := by
    unfold runMain
    rw [if_neg h]
  refine ⟨hout, ?_, ?_⟩
  · rw [hout, countNewlines_append]
    obtain ⟨k, v, kvs, hobj⟩ := parse_document_is_obj convert (resolvePath args stdin)
    rw [hobj]
    have hbound := dumps_indent_obj_multiline false k v kvs
    omega
  · intro c h32 hq hb
    have hn : ¬ c = '\n' := by
      intro hc
      rw [hc] at h32
      exact absurd h32 (by decide)
    have htb : ¬ c = '\t' := by
      intro hc
      rw [hc] at h32
      exact absurd h32 (by decide)
    have hr : ¬ c = '\x0d' := by
      intro hc
      rw [hc] at h32
      exact absurd h32 (by decide)
    have h8b : ¬ c.toNat = 8 := by omega
    have h12b : ¬ c.toNat = 12 := by omega
    have h32b : ¬ c.toNat < 32 := by omega
    unfold encodeChar
    rw [if_neg hq, if_neg hb, if_neg hn, if_neg htb, if_neg hr, if_neg h8b, if_neg h12b,
      if_neg h32b]
    simp

/-- Witness for the amended C5: an argument path with a raising
collaborator still produces the indented serialization. -/
theorem main_output_serialization_witness :
    resolvePath ["report.md"] ("") ≠ "" ∧
    ((runMain convRaise ["report.md"] ("")).1 =
      dumps (some 2) false 0 (parse_document convRaise (resolvePath ["report.md"] (""))) ++ "\n" ∧
    2 ≤ countNewlines ((runMain convRaise ["report.md"] ("")).1) ∧
    (∀ c : Char, 31 < c.toNat → c ≠ '"' → c ≠ '\\' →
      encodeChar false c = String.singleton c)) :=
  ⟨by decide, main_output_serialization convRaise ["report.md"] ("") (by decide)⟩
